import Mathlib

/-!
Verification of the dapts envelope layer (src/dapts/src/lib.rs).

The crate defines the three DAP message envelopes, Request, Response and
Event, together with construction helpers.  Payloads travel as generic
serde_json values; constructors serialize the typed payload with
serde_json::to_value and call unwrap on the result.

Embedding conventions:
- Json models serde_json::Value restricted to the integer-number fragment
  (no claim involves floating point numbers).  Objects are association
  lists with distinct keys, as produced by the serializers below; the
  lookup function takes the first occurrence of a key.
- A Rust argument of type impl Serialize is represented by the outcome of
  serde_json::to_value on it, that is a value of type Except SerError Json.
- A Rust function that may panic is embedded with result type Option:
  none models the panic raised by unwrap on an Err serialization result.
- i64 is modelled as Int; the deserializer checks the 64-bit signed range
  exactly where serde does when reading a number into an i64 field.
-/

namespace Dapts

/-- Generic JSON value (serde_json::Value), integer-number fragment. -/
inductive Json where
  | null : Json
  | bool : Bool → Json
  | num : Int → Json
  | str : String → Json
  | arr : List Json → Json
  | obj : List (String × Json) → Json

/-- serde_json::Value::is_null. -/
def Json.isNull : Json → Bool
  | .null => true
  | _ => false

/-- First-occurrence lookup in an association list of JSON object members. -/
def lookupKV : List (String × Json) → String → Option Json
  | [], _ => none
  | (k, v) :: rest, key => if k = key then some v else lookupKV rest key

/-- Key lookup on a JSON value: a member of an object, none otherwise. -/
def Json.lookup (j : Json) (key : String) : Option Json :=
  match j with
  | .obj kvs => lookupKV kvs key
  | _ => none

/-- The list of member keys of a JSON object (empty for non-objects). -/
def Json.keys : Json → List String
  | .obj kvs => kvs.map Prod.fst
  | _ => []

/-- Error raised by serde_json::to_value when a typed payload cannot be
represented as a generic value. -/
inductive SerError where
  | unserializable : String → SerError
deriving DecidableEq, Repr

/-- Error raised by serde deserialization of an envelope struct. -/
inductive DeError where
  | missingField : String → DeError
  | invalidType : String → DeError
  | invalidValue : String → DeError
deriving DecidableEq, Repr

/-- Rust unwrap on a serde_json::to_value result: none models the panic on Err. -/
def unwrapSer : Except SerError Json → Option Json
  | .ok j => some j
  | .error _ => none

/-- Smallest i64 value. -/
def i64Min : Int := -(2 ^ 63)

/-- Largest i64 value. -/
def i64Max : Int := 2 ^ 63 - 1

/-- Read a required i64 field from an optional object member, as serde does:
missing key and non-number or out-of-range values are errors. -/
def getI64 (j : Option Json) (field : String) : Except DeError Int :=
  match j with
  | some (.num n) =>
      if i64Min ≤ n ∧ n ≤ i64Max then .ok n else .error (.invalidValue field)
  | some _ => .error (.invalidType field)
  | none => .error (.missingField field)

/-- Read a required string field from an optional object member. -/
def getString (j : Option Json) (field : String) : Except DeError String :=
  match j with
  | some (.str s) => .ok s
  | some _ => .error (.invalidType field)
  | none => .error (.missingField field)

/-- Read a required bool field from an optional object member. -/
def getBool (j : Option Json) (field : String) : Except DeError Bool :=
  match j with
  | some (.bool b) => .ok b
  | some _ => .error (.invalidType field)
  | none => .error (.missingField field)

/-- Read an Option String field: a missing key and an explicit null both give
none, a string gives some, anything else is an error. -/
def getOptString (j : Option Json) (field : String) : Except DeError (Option String) :=
  match j with
  | none => .ok none
  | some .null => .ok none
  | some (.str s) => .ok (some s)
  | some _ => .error (.invalidType field)

/-- Read an Option serde_json::Value field: a missing key and an explicit null
both give none, any other value is kept as is. -/
def getOptValue (j : Option Json) : Option Json :=
  match j with
  | none => none
  | some .null => none
  | some v => some v

/-- The Request envelope: seq, command, and the generic arguments carrier
(serde default null when absent). -/
structure Request where
  seq : Int
  command : String
  arguments : Json

/-- Request::new: serializes the arguments payload and unwraps the result
(none models the panic on a non-serializable value). -/
def Request.new (seq : Int) (command : String)
    (arguments : Except SerError Json) : Option Request :=
  (unwrapSer arguments).map fun a =>
    { seq := seq, command := command, arguments := a }

/-- Derived serde serialization of Request: seq and command always, the
arguments member skipped when the value is null. -/
def Request.serialize (r : Request) : Json :=
  Json.obj ([("seq", Json.num r.seq), ("command", Json.str r.command)] ++
    (if r.arguments.isNull then [] else [("arguments", r.arguments)]))

/-- Derived serde deserialization of Request: an object with a required i64
seq, a required string command, and arguments defaulting to null. -/
def Request.deserialize (j : Json) : Except DeError Request :=
  match j with
  | .obj kvs => do
      let seq ← getI64 (lookupKV kvs "seq") "seq"
      let command ← getString (lookupKV kvs "command") "command"
      let arguments := (lookupKV kvs "arguments").getD Json.null
      .ok { seq := seq, command := command, arguments := arguments }
  | _ => .error (.invalidType "Request")

/-- The Event envelope: seq, event name, and the generic body carrier
(serde default null when absent). -/
structure Event where
  seq : Int
  event : String
  body : Json

/-- Event::new: serializes the body payload and unwraps the result
(none models the panic on a non-serializable value). -/
def Event.new (seq : Int) (event : String)
    (body : Except SerError Json) : Option Event :=
  (unwrapSer body).map fun b => { seq := seq, event := event, body := b }

/-- Derived serde serialization of Event: seq and event always, the body
member skipped when the value is null. -/
def Event.serialize (e : Event) : Json :=
  Json.obj ([("seq", Json.num e.seq), ("event", Json.str e.event)] ++
    (if e.body.isNull then [] else [("body", e.body)]))

/-- Derived serde deserialization of Event: an object with a required i64
seq, a required string event, and body defaulting to null. -/
def Event.deserialize (j : Json) : Except DeError Event :=
  match j with
  | .obj kvs => do
      let seq ← getI64 (lookupKV kvs "seq") "seq"
      let event ← getString (lookupKV kvs "event") "event"
      let body := (lookupKV kvs "body").getD Json.null
      .ok { seq := seq, event := event, body := body }
  | _ => .error (.invalidType "Event")

/-- The Response envelope: request_seq correlation field, success flag,
optional short message and optional generic body. -/
structure Response where
  request_seq : Int
  success : Bool
  message : Option String
  body : Option Json

/-- Modelled from the spec: the structured error Message type lives in the
missing types module of the crate; the envelope layer only uses its generic
JSON serialization, so a Message is represented by that serialization. -/
abbrev Message := Json

/-- Response::new: optional body payload, serialized and unwrapped when
present (none models the panic on a non-serializable value). -/
def Response.new (request_seq : Int) (success : Bool) (message : Option String)
    (body : Option (Except SerError Json)) : Option Response :=
  match body with
  | none => some { request_seq := request_seq, success := success,
                   message := message, body := none }
  | some sb => (unwrapSer sb).map fun b =>
      { request_seq := request_seq, success := success,
        message := message, body := some b }

/-- Response::success (named mkSuccess here because the field projection
Response.success already takes the source name): success true, message
absent, body the serialized payload, unwrapped. -/
def Response.mkSuccess (request_seq : Int)
    (body : Except SerError Json) : Option Response :=
  (unwrapSer body).map fun b =>
    { request_seq := request_seq, success := true, message := none,
      body := some b }

/-- Response::error: success false, the given short message, and the detail,
when present, wrapped as the single-member object under the fixed key
error (the serialization of the local ErrorResponseBody struct). -/
def Response.error (request_seq : Int) (message : Option String)
    (detail : Option Message) : Response :=
  { request_seq := request_seq, success := false, message := message,
    body := detail.map fun e => Json.obj [("error", e)] }

/-- Derived serde serialization of Response: request_seq keeps its snake_case
wire name by the per-field rename; message and body members are skipped
when None. -/
def Response.serialize (r : Response) : Json :=
  Json.obj ([("request_seq", Json.num r.request_seq),
             ("success", Json.bool r.success)] ++
    (match r.message with
     | some m => [("message", Json.str m)]
     | none => []) ++
    (match r.body with
     | some b => [("body", b)]
     | none => []))

/-- Derived serde deserialization of Response: required i64 request_seq and
bool success; message and body are optional, with an explicit null read
as None. -/
def Response.deserialize (j : Json) : Except DeError Response :=
  match j with
  | .obj kvs => do
      let rseq ← getI64 (lookupKV kvs "request_seq") "request_seq"
      let success ← getBool (lookupKV kvs "success") "success"
      let message ← getOptString (lookupKV kvs "message") "message"
      let body := getOptValue (lookupKV kvs "body")
      .ok { request_seq := rseq, success := success,
            message := message, body := body }
  | _ => .error (.invalidType "Response")

/-- A JSON value of the structured error wrapper shape: an object whose sole
member is the fixed key error. -/
def Json.isErrorWrapper : Json → Bool
  | .obj [(k, _)] => k == "error"
  | _ => false

/-! Helper lemmas shared by the claim theorems. -/

/-- Reading an in-range number as an i64 field succeeds. -/
theorem getI64_num_ok (n : Int) (f : String) (h : i64Min ≤ n ∧ n ≤ i64Max) :
    getI64 (some (Json.num n)) f = Except.ok n := by
  simp [getI64, h.1, h.2]

/-! Claim theorems. -/

/-- C1: Response::error with a present structured detail yields a body that is
the wrapper object with the single fixed key error holding the detail, and
with detail None yields an absent body. -/
theorem C1_error_wrapping (n : Int) (msg : Option String) (d : Message) :
    (Response.error n msg (some d)).body = some (Json.obj [("error", d)]) ∧
    (Response.error n msg none).body = none :=
  ⟨rfl, rfl⟩

/-- C2: every optional envelope member serializes as an absent key when empty
(null arguments / body, None message / body), never as an explicit JSON
null; in particular a Request with null arguments serializes with only the
seq and command keys. -/
theorem C2_optional_fields_omitted (r : Request) (s : Response) (e : Event)
    (n : Int) (c : String) :
    (Request.serialize r).lookup "arguments"
        = (if r.arguments.isNull then none else some r.arguments) ∧
    (Response.serialize s).lookup "message" = s.message.map Json.str ∧
    (Response.serialize s).lookup "body" = s.body ∧
    (Event.serialize e).lookup "body"
        = (if e.body.isNull then none else some e.body) ∧
    (Request.serialize { seq := n, command := c, arguments := Json.null }).keys
        = ["seq", "command"] := by
  obtain ⟨sq, cmd, args⟩ := r
  obtain ⟨rs, su, msg, bd⟩ := s
  obtain ⟨es, ev, ebody⟩ := e
  refine ⟨?_, ?_, ?_, ?_, rfl⟩
  · cases args <;> rfl
  · cases msg <;> cases bd <;> rfl
  · cases msg <;> cases bd <;> rfl
  · cases ebody <;> rfl

/-- C3 counterexample: at the concrete non-serializable inputs below, the
constructors panic (modelled as none) instead of returning a
SerializationError to the caller. -/
theorem C3_counterexample :
    Request.new 0 "launch" (Except.error (SerError.unserializable "x")) = none ∧
    Event.new 0 "stopped" (Except.error (SerError.unserializable "x")) = none ∧
    Response.mkSuccess 0 (Except.error (SerError.unserializable "x")) = none ∧
    Response.new 0 true none (some (Except.error (SerError.unserializable "x"))) = none :=
  ⟨rfl, rfl, rfl, rfl⟩

/-- C3 amended: on a value that cannot be represented as generic JSON,
Request::new, Event::new, Response::new and Response::success unwrap the
serialization error and panic rather than returning a SerializationError;
they return normally exactly when serialization succeeds. -/
theorem C3_constructors_panic_on_unserializable (seq : Int) (cmd ev : String)
    (j : Json) (er : SerError) (msg : Option String) (b : Bool) :
    Request.new seq cmd (Except.error er) = none ∧
    Event.new seq ev (Except.error er) = none ∧
    Response.mkSuccess seq (Except.error er) = none ∧
    Response.new seq b msg (some (Except.error er)) = none ∧
    Request.new seq cmd (Except.ok j)
        = some { seq := seq, command := cmd, arguments := j } ∧
    Event.new seq ev (Except.ok j) = some { seq := seq, event := ev, body := j } ∧
    Response.mkSuccess seq (Except.ok j)
        = some { request_seq := seq, success := true, message := none, body := some j } ∧
    Response.new seq b msg (some (Except.ok j))
        = some { request_seq := seq, success := b, message := msg, body := some j } :=
  ⟨rfl, rfl, rfl, rfl, rfl, rfl, rfl, rfl⟩

/-- C4: for every i64 seq, name and serializable payload, deserializing the
serialization of the envelope built by Request::new or Event::new yields the
same envelope, with the payload value preserved. -/
theorem C4_round_trip (seq : Int) (cmd ev : String) (j : Json)
    (h : i64Min ≤ seq ∧ seq ≤ i64Max) :
    Request.new seq cmd (Except.ok j)
        = some { seq := seq, command := cmd, arguments := j } ∧
    Request.deserialize (Request.serialize { seq := seq, command := cmd, arguments := j })
        = Except.ok { seq := seq, command := cmd, arguments := j } ∧
    Event.new seq ev (Except.ok j) = some { seq := seq, event := ev, body := j } ∧
    Event.deserialize (Event.serialize { seq := seq, event := ev, body := j })
        = Except.ok { seq := seq, event := ev, body := j } := by
  refine ⟨rfl, ?_, rfl, ?_⟩ <;>
    cases j <;>
      simp [Request.serialize, Request.deserialize, Event.serialize, Event.deserialize,
        Json.isNull, lookupKV, getString, getI64_num_ok _ _ h, bind, Except.bind]

/-- C4 witness at seq 5, command "launch", event "stopped", payload
an object with one member. -/
theorem C4_round_trip_witness :
    Request.new 5 "launch" (Except.ok (Json.obj [("program", Json.str "a.out")]))
        = some { seq := 5, command := "launch",
                 arguments := Json.obj [("program", Json.str "a.out")] } ∧
    Request.deserialize (Request.serialize
        { seq := 5, command := "launch",
          arguments := Json.obj [("program", Json.str "a.out")] })
        = Except.ok { seq := 5, command := "launch",
                      arguments := Json.obj [("program", Json.str "a.out")] } ∧
    Event.new 5 "stopped" (Except.ok (Json.obj [("program", Json.str "a.out")]))
        = some { seq := 5, event := "stopped",
                 body := Json.obj [("program", Json.str "a.out")] } ∧
    Event.deserialize (Event.serialize
        { seq := 5, event := "stopped",
          body := Json.obj [("program", Json.str "a.out")] })
        = Except.ok { seq := 5, event := "stopped",
                      body := Json.obj [("program", Json.str "a.out")] } :=
  C4_round_trip 5 "launch" "stopped" (Json.obj [("program", Json.str "a.out")])
    (by constructor <;> decide)

/-- C5: parsing a Request wire object succeeds for every command name,
including unbound ones, with the arguments kept as generic data; in
particular the unknown command future_cmd parses. -/
theorem C5_unknown_command_parses (cmd : String) (args : Json) :
    Request.deserialize (Json.obj [("seq", Json.num 3), ("command", Json.str cmd),
        ("arguments", args)])
      = Except.ok { seq := 3, command := cmd, arguments := args } ∧
    Request.deserialize (Json.obj [("seq", Json.num 3),
        ("command", Json.str "future_cmd"),
        ("arguments", Json.obj [("x", Json.num 1)])])
      = Except.ok { seq := 3, command := "future_cmd",
                    arguments := Json.obj [("x", Json.num 1)] } := by
  constructor
  · simp [Request.deserialize, lookupKV, getString, bind, Except.bind,
      getI64_num_ok 3 "seq" (by constructor <;> decide)]
  · rfl

/-- C6: Response::success yields request_seq N, success true, message absent
and body the serialized payload; at request_seq 1 and body the threadId
object it serializes to exactly the claimed wire object, with no message
key. -/
theorem C6_success_response (n : Int) (j : Json) :
    Response.mkSuccess n (Except.ok j)
        = some { request_seq := n, success := true, message := none, body := some j } ∧
    Response.serialize
        { request_seq := 1, success := true, message := none,
          body := some (Json.obj [("threadId", Json.num 7)]) }
      = Json.obj [("request_seq", Json.num 1), ("success", Json.bool true),
          ("body", Json.obj [("threadId", Json.num 7)])] :=
  ⟨rfl, rfl⟩

/-- C7 counterexample: Response::new is a public construction operation and
at the concrete input below it produces a success false Response whose
present body is not the error wrapper and whose message is absent. -/
theorem C7_counterexample :
    Response.new 1 false none (some (Except.ok (Json.num 42)))
        = some { request_seq := 1, success := false, message := none,
                 body := some (Json.num 42) } ∧
    Json.isErrorWrapper (Json.num 42) = false ∧
    (none : Option String).isSome = false :=
  ⟨rfl, rfl, rfl⟩

/-- C7 amended: every Response produced by Response::error has success false,
its body, when present, is the structured error wrapper with the single key
error, and its message is exactly the caller-supplied optional short
message, which may also be absent; Response::new enforces neither the
wrapper shape nor message presence. -/
theorem C7_error_responses_wrapped (n : Int) (msg : Option String)
    (d : Option Message) :
    (Response.error n msg d).success = false ∧
    (Response.error n msg d).body.all Json.isErrorWrapper = true ∧
    (Response.error n msg d).message = msg := by
  refine ⟨rfl, ?_, rfl⟩
  cases d <;> rfl

/-- C8: Response serialization emits the correlation field under the exact
snake_case wire name request_seq, and deserialization reads it back from
that key (and from no other spelling, such as camelCase requestSeq). -/
theorem C8_request_seq_wire_name (r : Response) (n : Int) (b : Bool)
    (h : i64Min ≤ n ∧ n ≤ i64Max) :
    (Response.serialize r).lookup "request_seq" = some (Json.num r.request_seq) ∧
    Response.deserialize (Json.obj [("request_seq", Json.num n),
        ("success", Json.bool b)])
      = Except.ok { request_seq := n, success := b, message := none, body := none } ∧
    Response.deserialize (Json.obj [("requestSeq", Json.num n),
        ("success", Json.bool b)])
      = Except.error (DeError.missingField "request_seq") := by
  refine ⟨rfl, ?_, rfl⟩
  simp [Response.deserialize, lookupKV, getBool, getOptString, getOptValue,
    getI64_num_ok _ _ h, bind, Except.bind]

/-- C8 witness at request_seq 9. -/
theorem C8_request_seq_wire_name_witness :
    (Response.serialize
        { request_seq := 9, success := true, message := none,
          body := none }).lookup "request_seq" = some (Json.num 9) ∧
    Response.deserialize (Json.obj [("request_seq", Json.num 9),
        ("success", Json.bool true)])
      = Except.ok { request_seq := 9, success := true, message := none, body := none } ∧
    Response.deserialize (Json.obj [("requestSeq", Json.num 9),
        ("success", Json.bool true)])
      = Except.error (DeError.missingField "request_seq") :=
  C8_request_seq_wire_name
    { request_seq := 9, success := true, message := none, body := none }
    9 true (by constructor <;> decide)

/-- C9: a body payload that serializes to JSON null makes Response::success
and Response::new produce a Response with body some null, whose
serialization carries the explicit member body mapped to null, unlike the
Request and Event envelopes, which omit null payload keys. -/
theorem C9_response_body_explicit_null (n : Int) (c : String) :
    Response.mkSuccess n (Except.ok Json.null)
        = some { request_seq := n, success := true, message := none,
                 body := some Json.null } ∧
    Response.new n true none (some (Except.ok Json.null))
        = some { request_seq := n, success := true, message := none,
                 body := some Json.null } ∧
    (Response.serialize
        { request_seq := n, success := true, message := none,
          body := some Json.null }).lookup "body" = some Json.null ∧
    (Request.serialize { seq := n, command := c, arguments := Json.null }).lookup
        "arguments" = none ∧
    (Event.serialize { seq := n, event := c, body := Json.null }).lookup
        "body" = none :=
  ⟨rfl, rfl, rfl, rfl, rfl⟩

/-- C10: a Request or Event wire object without the payload key deserializes
to a null payload, an explicit null payload deserializes to the same
envelope, and re-serializing that envelope omits the key again. -/
theorem C10_absent_equals_null_payload (s : Int) (c : String)
    (h : i64Min ≤ s ∧ s ≤ i64Max) :
    Request.deserialize (Json.obj [("seq", Json.num s), ("command", Json.str c)])
        = Except.ok { seq := s, command := c, arguments := Json.null } ∧
    Request.deserialize (Json.obj [("seq", Json.num s), ("command", Json.str c),
        ("arguments", Json.null)])
        = Except.ok { seq := s, command := c, arguments := Json.null } ∧
    Request.serialize { seq := s, command := c, arguments := Json.null }
        = Json.obj [("seq", Json.num s), ("command", Json.str c)] ∧
    Event.deserialize (Json.obj [("seq", Json.num s), ("event", Json.str c)])
        = Except.ok { seq := s, event := c, body := Json.null } ∧
    Event.deserialize (Json.obj [("seq", Json.num s), ("event", Json.str c),
        ("body", Json.null)])
        = Except.ok { seq := s, event := c, body := Json.null } ∧
    Event.serialize { seq := s, event := c, body := Json.null }
        = Json.obj [("seq", Json.num s), ("event", Json.str c)] := by
  refine ⟨?_, ?_, rfl, ?_, ?_, rfl⟩ <;>
    simp [Request.deserialize, Event.deserialize, lookupKV, getString,
      getI64_num_ok _ _ h, bind, Except.bind]

/-- C10 witness at seq 2, name "stopped". -/
theorem C10_absent_equals_null_payload_witness :
    Request.deserialize (Json.obj [("seq", Json.num 2), ("command", Json.str "stopped")])
        = Except.ok { seq := 2, command := "stopped", arguments := Json.null } ∧
    Request.deserialize (Json.obj [("seq", Json.num 2), ("command", Json.str "stopped"),
        ("arguments", Json.null)])
        = Except.ok { seq := 2, command := "stopped", arguments := Json.null } ∧
    Request.serialize { seq := 2, command := "stopped", arguments := Json.null }
        = Json.obj [("seq", Json.num 2), ("command", Json.str "stopped")] ∧
    Event.deserialize (Json.obj [("seq", Json.num 2), ("event", Json.str "stopped")])
        = Except.ok { seq := 2, event := "stopped", body := Json.null } ∧
    Event.deserialize (Json.obj [("seq", Json.num 2), ("event", Json.str "stopped"),
        ("body", Json.null)])
        = Except.ok { seq := 2, event := "stopped", body := Json.null } ∧
    Event.serialize { seq := 2, event := "stopped", body := Json.null }
        = Json.obj [("seq", Json.num 2), ("event", Json.str "stopped")] :=
  C10_absent_equals_null_payload 2 "stopped" (by constructor <;> decide)

end Dapts
